import Mathlib

/-!
Verification of the AI core of the `csrpg` repository ("Ink Realm: Lone Army").

The TypeScript sources are shallowly embedded: numbers become `ℚ`, three.js
vectors become rational triples, class instances become records, and mutating
methods become state-passing functions.  Two systematic conventions:

* A Euclidean distance `p.distanceTo(q)` compared against a constant `c` is
  embedded as `Vec3.normSq (Vec3.sub p q) < c * c`; for nonnegative reals the
  two comparisons are equivalent, and the squared form stays in `ℚ`.
  Where the *value* of a distance (not just a comparison) is needed
  (`scoreCover`, `getPriority`, perception), the distance is passed as an
  explicit `ℚ` argument.
* `Math.cos`, `Vector3.normalize` and `Math.random` return irrational values;
  the cosines appear as precomputed fields (`cosHalfView`, `cosHalfPeriph`),
  and `normalize` / random offsets are passed as function parameters `nrm` /
  `offs`.  No modelled claim depends on their actual values.
-/

namespace CSRPG

/-- Rational stand-in for `THREE.Vector3`. -/
structure Vec3 where
  x : ℚ
  y : ℚ
  z : ℚ
deriving DecidableEq, Repr

def Vec3.zero : Vec3 := ⟨0, 0, 0⟩

def Vec3.add (a b : Vec3) : Vec3 := ⟨a.x + b.x, a.y + b.y, a.z + b.z⟩

def Vec3.sub (a b : Vec3) : Vec3 := ⟨a.x - b.x, a.y - b.y, a.z - b.z⟩

def Vec3.smul (c : ℚ) (a : Vec3) : Vec3 := ⟨c * a.x, c * a.y, c * a.z⟩

/-- Squared Euclidean length, `‖v‖²`; `‖v‖ < c ↔ normSq v < c²` for `c ≥ 0`. -/
def Vec3.normSq (a : Vec3) : ℚ := a.x * a.x + a.y * a.y + a.z * a.z

/-- Modelled from the spec: the fixed agent state set
`{IDLE, PATROL, ALERT, CHASE, COMBAT, COVER, RETREAT, DEAD}` (spec §3).
The enum lives in `src/core/constants.ts`, which is not among the provided
sources; every constructor below is exercised by the provided files. -/
inductive AIState where
  | IDLE
  | PATROL
  | ALERT
  | CHASE
  | COMBAT
  | COVER
  | RETREAT
  | DEAD
deriving DecidableEq, Repr

/-- Perception configuration (`PerceptionConfig`, Perception.ts lines 33-48).
`cosHalfView` stands for `Math.cos(viewAngle / 2)` and `cosHalfPeriph` for
`Math.cos(peripheralAngle / 2)`: the source always uses the angles through
these two cosines, which are irrational for the default angles, so the
embedding stores the cosines themselves. -/
structure PerceptionConfig where
  viewDistance : ℚ
  cosHalfView : ℚ
  cosHalfPeriph : ℚ
  hearingRange : ℚ
  alertHearingRange : ℚ
  memoryDuration : ℚ
deriving DecidableEq, Repr

/-- Embedding of `AICharacter` (AICharacter.ts lines 62-121): the fields read
or written by the modelled methods.  `perceptionLOS` stands for
`this.perception?.hasLineOfSight` (false when `perception` is null); the
`rotation` Euler angle is omitted — `rotateTowardTarget` writes only it, and
orientation reaches the modelled logic only through the perception `dot`
argument. -/
structure Agent where
  id : ℕ
  etype : String
  position : Vec3
  velocity : Vec3
  targetPosition : Vec3
  alertTarget : Option Vec3
  health : ℚ
  maxHealth : ℚ
  armor : ℚ
  state : AIState
  isAlive : Bool
  isMoving : Bool
  isAttacking : Bool
  isInCover : Bool
  perceptionLOS : Bool
  perceptionConfig : PerceptionConfig
  patrolPoints : List Vec3
  currentPatrolIndex : ℕ
deriving DecidableEq, Repr

/-- `AICharacter.die` (AICharacter.ts lines 361-366). -/
def die (a : Agent) : Agent :=
  { a with isAlive := false, state := .DEAD, velocity := Vec3.zero, isAttacking := false }

/-- `AICharacter.takeDamage` (AICharacter.ts lines 342-358).  When
`armor ≤ 0` the source leaves `armor` and `damage` untouched, which is the
`armorDamage = 0` case of this single-expression form. -/
def takeDamage (a : Agent) (amount : ℚ) : Agent :=
  if a.isAlive = false then a
  else
    let armorDamage := if 0 < a.armor then min (amount * (1/2)) a.armor else 0
    let health2 := max 0 (a.health - (amount - armorDamage))
    let a2 := { a with armor := a.armor - armorDamage, health := health2 }
    if health2 ≤ 0 then die a2 else a2

/-- `AICharacter.respawn` (AICharacter.ts lines 369-375). -/
def respawn (a : Agent) (pos : Vec3) : Agent :=
  { a with position := pos, health := a.maxHealth, armor := 0,
           isAlive := true, state := .IDLE }

/-- `AICharacter.startPatrol` (AICharacter.ts lines 276-279). -/
def startPatrol (a : Agent) : Agent :=
  if a.patrolPoints = [] then a else { a with currentPatrolIndex := 0 }

/-- `AICharacter.startRetreat` (AICharacter.ts lines 329-333);
`nrm` stands for `THREE.Vector3.normalize`. -/
def startRetreat (nrm : Vec3 → Vec3) (a : Agent) : Agent :=
  { a with targetPosition :=
      Vec3.add a.position (Vec3.smul 20 (nrm (Vec3.sub a.position a.targetPosition))) }

/-- `AICharacter.transitionTo` (AICharacter.ts lines 194-214).  Note: the
source has no liveness check — only `state === newState` short-circuits. -/
def transitionTo (nrm : Vec3 → Vec3) (a : Agent) (newState : AIState) : Agent :=
  if a.state = newState then a
  else
    let a2 := { a with state := newState }
    match newState with
    | .PATROL => startPatrol a2
    | .COMBAT => { a2 with isAttacking := true }
    | .RETREAT => startRetreat nrm a2
    | _ => a2

/-- `AICharacter.setAlertTarget` (AICharacter.ts lines 310-313). -/
def setAlertTarget (a : Agent) (pos : Vec3) : Agent :=
  { a with alertTarget := some pos, targetPosition := pos }

/-- JavaScript `speed || 2.0`: `0`/absent are falsy and fall back to the
default. -/
def jsOr (v : Option ℚ) (dflt : ℚ) : ℚ :=
  match v with
  | some s => if s = 0 then dflt else s
  | none => dflt

/-- `AICharacter.moveToward` (AICharacter.ts lines 217-229); the `deltaTime`
parameter is unused by the source body and omitted here.  `distance < 0.5`
is embedded squared. -/
def moveToward (nrm : Vec3 → Vec3) (a : Agent) (target : Vec3) (speed : Option ℚ) : Agent :=
  let diff := Vec3.sub target a.position
  if Vec3.normSq diff < (1/2) * (1/2) then { a with velocity := Vec3.zero }
  else { a with velocity := Vec3.smul (jsOr speed 2) (nrm diff) }

/-- `AICharacter.executeFlankManuver` (AICharacter.ts lines 316-326); `off`
stands for the `(Math.random() - 0.5) * 20` lateral offset vector. -/
def executeFlankManuver (nrm : Vec3 → Vec3) (off : Vec3) (a : Agent) (target : Vec3) : Agent :=
  let a1 := { a with targetPosition := Vec3.add target off }
  moveToward nrm a1 a1.targetPosition (some 4)

/-- `AICharacter.updateState` (AICharacter.ts lines 173-191).  The source
compares `velocity.length()` against `0.1` and `3`; both sides are
nonnegative, so the squared comparisons used here are equivalent. -/
def updateState (a : Agent) : Agent :=
  let speedSq := Vec3.normSq a.velocity
  let moving := decide ((1/100 : ℚ) < speedSq)
  let a2 := { a with isMoving := moving }
  if a2.isInCover then { a2 with state := .COVER }
  else if a2.perceptionLOS then { a2 with state := .COMBAT }
  else if moving then
    if (9 : ℚ) < speedSq then { a2 with state := .CHASE }
    else { a2 with state := .PATROL }
  else { a2 with state := .IDLE }

/-- `AICharacter.update` (AICharacter.ts lines 144-155): guard on liveness,
integrate velocity, then recompute the state.  `rotateTowardTarget`
(line 151) writes only the omitted orientation field. -/
def update (a : Agent) (dt : ℚ) : Agent :=
  if a.isAlive = false then a
  else updateState { a with position := Vec3.add a.position (Vec3.smul dt a.velocity) }

/-! ## Perception (Perception.ts) -/

/-- The mutable memory of a `PerceptionSystem` instance
(Perception.ts lines 62-72). -/
structure PerceptionState where
  lastKnownPosition : Vec3
  lastSeenTime : ℚ
  lastHeardTime : ℚ
  lastDamagePosition : Option Vec3
  lastDamageTime : ℚ
deriving DecidableEq, Repr

/-- `PerceptionResult` (Perception.ts lines 11-30).  `dotToTarget` replaces
`angleToTarget = arccos(dot)`; the arccosine is irrational and unused by any
modelled logic. -/
structure PerceptionResult where
  hasLineOfSight : Bool
  visiblePosition : Option Vec3
  distanceToTarget : ℚ
  dotToTarget : ℚ
  canHear : Bool
  hearingSensitivity : ℚ
  isTakingDamage : Bool
  lastDamagePosition : Option Vec3
  lastDamageTime : ℚ
  timeSinceLastSeen : ℚ
  timeSinceLastHeard : ℚ
deriving DecidableEq, Repr

/-- `PerceptionSystem.checkVision` (Perception.ts lines 139-170), over the
precomputed distance to target and the dot of the (unit) forward vector with
the (unit) direction to target. -/
def checkVision (cfg : PerceptionConfig) (dist dot : ℚ) : Bool :=
  if cfg.viewDistance < dist then false
  else if cfg.cosHalfView ≤ dot then true
  else if cfg.cosHalfPeriph ≤ dot then decide (dist < cfg.viewDistance * (1/2))
  else false

/-- `PerceptionSystem.checkHearing` (Perception.ts lines 173-187). -/
def checkHearing (cfg : PerceptionConfig) (dist : ℚ) : Bool :=
  if cfg.alertHearingRange < dist then false
  else decide (dist < cfg.hearingRange)

/-- `PerceptionSystem.getHearingSensitivity` (Perception.ts lines 208-220). -/
def getHearingSensitivity (etype : String) : ℚ :=
  if etype = "elite" then 3/2
  else if etype = "soldier" then 6/5
  else 1

/-- `PerceptionSystem.recordDamage` (Perception.ts lines 202-205); `now`
stands for `performance.now()`. -/
def recordDamage (ps : PerceptionState) (pos : Vec3) (now : ℚ) : PerceptionState :=
  { ps with lastDamagePosition := some pos, lastDamageTime := now }

/-- `PerceptionSystem.update` (Perception.ts lines 80-136): runs the vision,
hearing and damage-recency tests, mutates the memory, and produces a fresh
result.  `dist`/`dot` are the distance to target and forward · direction
values the source derives from the geometry; `checkDamage` (lines 190-199) is
inlined as the 1000 ms recency test it performs. -/
def perceptionUpdate (ps : PerceptionState) (cfg : PerceptionConfig)
    (now dist dot : ℚ) (targetPosition : Vec3) (etype : String) :
    PerceptionState × PerceptionResult :=
  let hasLineOfSight := checkVision cfg dist dot
  let ps1 := if hasLineOfSight then
      { ps with lastKnownPosition := targetPosition, lastSeenTime := now }
    else ps
  let canHear := checkHearing cfg dist
  let ps2 := if canHear then { ps1 with lastHeardTime := now } else ps1
  (ps2,
   { hasLineOfSight := hasLineOfSight
     visiblePosition := if hasLineOfSight then some targetPosition else none
     distanceToTarget := dist
     dotToTarget := dot
     canHear := canHear
     hearingSensitivity := getHearingSensitivity etype
     isTakingDamage := decide (now - ps2.lastDamageTime < 1000)
     lastDamagePosition := ps2.lastDamagePosition
     lastDamageTime := ps2.lastDamageTime
     timeSinceLastSeen := now - ps2.lastSeenTime
     timeSinceLastHeard := now - ps2.lastHeardTime })

/-! ## Cover system (CoverSystem.ts) -/

/-- `CoverType` (CoverSystem.ts lines 12-17). -/
inductive CoverType where
  | LOW
  | HIGH
  | DYNAMIC
  | ENERGY
deriving DecidableEq, Repr

/-- `CoverSpot` (CoverSystem.ts lines 20-29), restricted to the fields the
scoring logic reads.  Because `findBestCover` evaluates every spot against
one fixed agent position and one fixed threat position, the two geometric
quantities derived from `position` are carried directly: `dist` is
`enemy.position.distanceTo(cover.position)` and `angleLtHalfPi` is the test
`angleTo(agent→cover, agent→threat) < π/2` (CoverSystem.ts lines 165-170). -/
structure CoverSpot where
  id : ℕ
  quality : ℚ
  ctype : CoverType
  health : Option ℚ
  dist : ℚ
  angleLtHalfPi : Bool
deriving DecidableEq, Repr

/-- `CoverSystem.scoreCover` (CoverSystem.ts lines 150-180). -/
def scoreCover (c : CoverSpot) : ℚ :=
  max 0 ((30 - c.dist) / 30) * (3/10)
  + c.quality * (3/10)
  + (if c.angleLtHalfPi then (4:ℚ)/10 else 0)
  + (if c.ctype = .HIGH then (1:ℚ)/10 else 0)

/-- `CoverSystem.getAvailableCovers` (CoverSystem.ts lines 135-147):
spots strictly within 30 units whose health is undefined or positive. -/
def getAvailableCovers (covers : List CoverSpot) : List CoverSpot :=
  covers.filter (fun c =>
    decide (c.dist < 30) &&
    (match c.health with
     | none => true
     | some h => decide (0 < h)))

/-- Reading the `score` property off a `CoverSpot`: the interface has no such
property, so the JavaScript access at CoverSystem.ts line 126
(`bestCover.score`) yields `undefined`, modelled as `none`. -/
def coverScoreField (_ : CoverSpot) : Option ℚ := none

/-- JavaScript subtraction where the left operand may be `undefined`:
`undefined - y` is `NaN`, modelled as `none`. -/
def jsSubUndef (a : Option ℚ) (b : ℚ) : Option ℚ := a.map (· - b)

/-- JavaScript `<` where the left operand may be `NaN`: any comparison with
`NaN` is false. -/
def jsLtNaN (a : Option ℚ) (b : ℚ) : Bool :=
  match a with
  | some x => decide (x < b)
  | none => false

/-! ## Stable descending sort

Both `CoverSystem.findBestCover` (line 117) and
`AIManager.sortEnemiesByPriority` (part_000 lines 247-254) use JavaScript
`Array.prototype.sort` with a comparator `(a, b) => key(b) - key(a)`, i.e. a
*stable* sort into descending key order (ECMAScript guarantees stability).
`sortD` is the stable descending insertion sort, extensionally equal to any
stable descending sort. -/

def insertD (key : α → ℚ) (x : α) : List α → List α
  | [] => [x]
  | y :: ys => if key y ≤ key x then x :: y :: ys else y :: insertD key x ys

def sortD (key : α → ℚ) : List α → List α
  | [] => []
  | x :: xs => insertD key x (sortD key xs)

/-- `CoverSystem.findBestCover` (CoverSystem.ts lines 101-132).  The
hysteresis branch (lines 123-129) compares `bestCover.score - currentScore`
with `0.2`; `bestCover` is the spot itself, which has no `score` property, so
the embedded comparison goes through `coverScoreField` / `jsSubUndef` /
`jsLtNaN` exactly as the JavaScript semantics dictate. -/
def findBestCover (covers : List CoverSpot) (currentCover : Option CoverSpot) :
    Option CoverSpot :=
  let avail := getAvailableCovers covers
  if avail.isEmpty then none
  else
    let scored := avail.map (fun c => (c, scoreCover c))
    let sorted := sortD (fun p => p.2) scored
    let best? := sorted.head?.map (fun p => p.1)
    match currentCover, best? with
    | some cur, some best =>
      let currentScore := scoreCover cur
      if jsLtNaN (jsSubUndef (coverScoreField best) currentScore) (2/10) then some cur
      else some best
    | _, _ => best?

/-! ## Scheduler (AIManager, unnamed/part_000) -/

/-- `GAME_CONFIG.AI_BATCH_SIZE` (Core.ts line 23). -/
def AI_BATCH_SIZE : ℕ := 10

/-- `AIManager.getPriority` (part_000 lines 256-279), written as the same
sequence of `priority +=` steps.  `dist` is
`enemy.position.distanceTo(this.playerPosition)`, passed as a value. -/
def getPriority (e : Agent) (dist : ℚ) : ℚ :=
  let p1 : ℚ := if e.state = .COMBAT ∨ e.state = .CHASE then 0 + 3 else 0
  let p2 : ℚ := if e.state = .ALERT then p1 + 2 else p1
  let p3 : ℚ := if e.health < e.maxHealth * (3/10) then p2 + 1 else p2
  p3 + max 0 ((100 - dist) / 100)

/-- `AIManager.sortEnemiesByPriority` (part_000 lines 247-254): the registry
(`Map` insertion order) sorted stably by descending priority.  `distOf`
stands for `enemy.position.distanceTo(this.playerPosition)`. -/
def sortEnemiesByPriority (distOf : Agent → ℚ) (enemies : List Agent) : List Agent :=
  sortD (fun e => getPriority e (distOf e)) enemies

/-- The `AIManager` state (part_000 lines 47-89): the enemy registry in `Map`
insertion order, the *single* `PerceptionSystem` instance created in the
constructor (line 87) and shared by every registered enemy, the cached player
position, and the round-robin cursor. -/
structure AIManagerState where
  enemies : List Agent
  perceptionShared : PerceptionState
  playerPosition : Vec3
  currentBatchIndex : ℕ
deriving DecidableEq, Repr

/-- The batching part of `AIManager.update` (part_000 lines 114-140): sort by
priority, process from the cursor until the batch size or the end of the
list, then advance the cursor modulo `max 1 length`.  `upd` stands for the
per-agent LOD update `updateEnemy` (lines 143-156), which mutates only the
processed agents; the wall-clock deadline break (line 124) is omitted — all
the claims about this loop assume cheap per-agent cost, under which the
deadline never fires. -/
def tick (distOf : Agent → ℚ) (upd : Agent → Agent) (m : AIManagerState) :
    AIManagerState :=
  let sorted := sortEnemiesByPriority distOf m.enemies
  let window := (sorted.drop m.currentBatchIndex).take AI_BATCH_SIZE
  let processed := window.length
  let ids := window.map (fun e => e.id)
  { m with
    enemies := m.enemies.map (fun e => if ids.contains e.id then upd e else e)
    currentBatchIndex := (m.currentBatchIndex + processed) % max 1 sorted.length }

/-- Number of entries the batching loop of `AIManager.update` visits. -/
def processedCount (m : AIManagerState) : ℕ :=
  min AI_BATCH_SIZE (m.enemies.length - m.currentBatchIndex)

/-- Step 1 of `AIManager.updateEnemyFull` / `updateEnemySimplified`
(part_000 lines 162-164 and 194-196): `this.perception.update(enemy,
this.playerPosition)` — note `this.perception` is the one shared instance —
and the store of the result on the enemy. -/
def perceiveFor (m : AIManagerState) (e : Agent) (now dist dot : ℚ) :
    AIManagerState × PerceptionResult :=
  let pr := perceptionUpdate m.perceptionShared e.perceptionConfig now dist dot
              m.playerPosition e.etype
  ({ m with
     perceptionShared := pr.1
     enemies := m.enemies.map (fun x =>
       if x.id = e.id then { x with perceptionLOS := pr.2.hasLineOfSight } else x) },
   pr.2)

/-- The damage pipeline's `recordDamage` call reaching the manager's shared
`PerceptionSystem` (Perception.ts lines 202-205, instance owned at part_000
line 87). -/
def recordDamageM (m : AIManagerState) (pos : Vec3) (now : ℚ) : AIManagerState :=
  { m with perceptionShared := recordDamage m.perceptionShared pos now }

/-- `AIManager.alertNearbyEnemies` applied to one registry entry (part_000
lines 226-244): skip the source and dead agents; within 30 units transition
to ALERT, set the alert target, and flank if the type tag is `"flanker"`.
`off` stands for that enemy's random flank offset. -/
def alertOne (nrm : Vec3 → Vec3) (off : Vec3) (playerPos : Vec3)
    (srcId : ℕ) (srcPos : Vec3) (e : Agent) : Agent :=
  if e.id = srcId ∨ e.isAlive = false then e
  else if Vec3.normSq (Vec3.sub e.position srcPos) < 30 * 30 then
    let e1 := transitionTo nrm e .ALERT
    let e2 := setAlertTarget e1 playerPos
    if e2.etype = "flanker" then executeFlankManuver nrm off e2 playerPos else e2
  else e

/-- `AIManager.alertNearbyEnemies` (part_000 lines 226-244) over the whole
registry; `offs i` is the random flank offset drawn for the `i`-th entry. -/
def alertNearbyEnemies (nrm : Vec3 → Vec3) (offs : ℕ → Vec3) (playerPos : Vec3)
    (srcId : ℕ) (srcPos : Vec3) (enemies : List Agent) : List Agent :=
  enemies.enum.map (fun p => alertOne nrm (offs p.1) playerPos srcId srcPos p.2)

/-- One iteration of the `updateGroupAI` loop (part_000 lines 217-222): if
the agent currently stored at registry position `k` is alive and its stored
perception has line of sight, run the alert pass with it as source. -/
def groupStep (nrm : Vec3 → Vec3) (offs : ℕ → ℕ → Vec3) (playerPos : Vec3)
    (es : List Agent) (k : ℕ) : List Agent :=
  match es[k]? with
  | some e =>
    if e.isAlive && e.perceptionLOS then
      alertNearbyEnemies nrm (offs k) playerPos e.id e.position es
    else es
  | none => es

/-- `AIManager.updateGroupAI` (part_000 lines 215-223): the per-frame
group-alert pass over every registry position in order.  `offs k i` is the
flank offset for entry `i` of the pass triggered by source position `k`. -/
def updateGroupAI (nrm : Vec3 → Vec3) (offs : ℕ → ℕ → Vec3) (playerPos : Vec3)
    (enemies : List Agent) : List Agent :=
  (List.range enemies.length).foldl (groupStep nrm offs playerPos) enemies

/-! ## Operation sequences (for the health/armor invariant) -/

/-- One externally triggered life-cycle operation on an agent. -/
inductive AgentOp where
  | damage (amount : ℚ)
  | respawnAt (pos : Vec3)

/-- Apply one operation. -/
def applyOp (a : Agent) : AgentOp → Agent
  | .damage d => takeDamage a d
  | .respawnAt p => respawn a p

/-- Apply a finite sequence of operations, oldest first. -/
def applyOps (a : Agent) : List AgentOp → Agent
  | [] => a
  | op :: rest => applyOps (applyOp a op) rest

/-- Damage amounts are nonnegative; respawns are unrestricted. -/
def opOk : AgentOp → Prop
  | .damage d => 0 ≤ d
  | .respawnAt _ => True

/-- The claimed invariant: health within `[0, maxHealth]`, armor nonnegative. -/
def AgentInv (a : Agent) : Prop :=
  0 ≤ a.health ∧ a.health ≤ a.maxHealth ∧ 0 ≤ a.armor

/-! ## Concrete instances used in witnesses and counterexamples -/

/-- A concrete perception configuration: `viewDistance 30`, stand-ins
`cosHalfView = 0.7`, `cosHalfPeriph = -0.3`, hearing 20/30, memory 3000 ms. -/
def cfgW : PerceptionConfig := ⟨30, 7/10, -3/10, 20, 30, 3000⟩

/-- A plain live grunt at the origin with full health and no armor. -/
def liveGrunt : Agent :=
  { id := 0, etype := "grunt", position := Vec3.zero, velocity := Vec3.zero,
    targetPosition := Vec3.zero, alertTarget := none, health := 100,
    maxHealth := 100, armor := 0, state := .IDLE, isAlive := true,
    isMoving := false, isAttacking := false, isInCover := false,
    perceptionLOS := false, perceptionConfig := cfgW, patrolPoints := [],
    currentPatrolIndex := 0 }

/-- A live grunt with 20 armor (Scenario D of the spec). -/
def g20 : Agent := { liveGrunt with armor := 20 }

/-- A fast-moving live grunt (speed 4 > 3). -/
def chaseW : Agent := { liveGrunt with velocity := ⟨4, 0, 0⟩ }

/-- A dead agent, as `die` leaves it. -/
def deadC : Agent := { liveGrunt with state := .DEAD, isAlive := false, health := 0 }

/-- Current cover spot: distance 30, quality 1/3, LOW, between agent and
threat — `scoreCover = 0.5`. -/
def curSpot : CoverSpot := ⟨0, 1/3, .LOW, none, 30, true⟩

/-- Candidate cover spot: distance 20, quality 0.3, HIGH, between agent and
threat — `scoreCover = 0.69`, margin over `curSpot` exactly `0.19`. -/
def candSpot : CoverSpot := ⟨1, 3/10, .HIGH, none, 20, true⟩

/-- Shared-perception scene: two live agents, shared memory zeroed, player
at `(7,0,0)`. -/
def agentA : Agent := liveGrunt

def agentB : Agent := { liveGrunt with id := 1, position := ⟨1, 0, 0⟩ }

def m2agents : AIManagerState :=
  { enemies := [agentA, agentB], perceptionShared := ⟨Vec3.zero, 0, 0, none, 0⟩,
    playerPosition := ⟨7, 0, 0⟩, currentBatchIndex := 0 }

/-- Scheduler scene for the 50-agent scenario: 50 live grunts, cursor 0. -/
def m50 : AIManagerState :=
  { enemies := (List.range 50).map (fun i => { liveGrunt with id := i }),
    perceptionShared := ⟨Vec3.zero, 0, 0, none, 0⟩,
    playerPosition := Vec3.zero, currentBatchIndex := 0 }

/-- One scheduler tick of the 50-agent scenario (all agents at distance 100,
per-agent update left as the identity — the claim observes only counts and
the cursor). -/
def step50 : AIManagerState → AIManagerState := tick (fun _ => 100) id

/-- A dead registered agent (highest priority: closest and at low health). -/
def deadScout : Agent := { liveGrunt with state := .DEAD, isAlive := false, health := 0 }

def idleFar1 : Agent := { liveGrunt with id := 1, position := ⟨100, 0, 0⟩ }

def idleFar2 : Agent := { liveGrunt with id := 2, position := ⟨100, 0, 0⟩ }

/-- Distances to the player for the three-agent scheduler scene (the player
sits at the origin, `deadScout` at the origin, the others at `(100,0,0)`). -/
def distOf3 : Agent → ℚ := fun a => if a.id = 0 then 0 else 100

/-- Scheduler scene with a dead agent still registered and cursor 1. -/
def m3 : AIManagerState :=
  { enemies := [deadScout, idleFar1, idleFar2],
    perceptionShared := ⟨Vec3.zero, 0, 0, none, 0⟩,
    playerPosition := Vec3.zero, currentBatchIndex := 1 }

/-- Group-alert scene: agent 0 sees the player, agent 1 is a live agent in
COMBAT one unit away. -/
def srcSeer : Agent := { liveGrunt with perceptionLOS := true, state := .COMBAT }

def combatMate : Agent := { liveGrunt with id := 1, position := ⟨1, 0, 0⟩, state := .COMBAT }

/-- Zero flank offsets (the random offsets are irrelevant to the claims). -/
def offsZ : ℕ → ℕ → Vec3 := fun _ _ => Vec3.zero

/-- A live COMBAT agent used to exercise the alert pass elementwise. -/
def combatNear : Agent := { liveGrunt with id := 5, state := .COMBAT, position := ⟨3, 0, 0⟩ }

/-- A damage/respawn/overkill sequence with nonnegative amounts. -/
def opsW : List AgentOp := [.damage 30, .respawnAt Vec3.zero, .damage 200]

/-! ## Helper lemmas: the stable descending sort -/

theorem insertD_perm (key : α → ℚ) (x : α) (l : List α) :
    List.Perm (insertD key x l) (x :: l) := by
  induction l with
  | nil => exact List.Perm.refl _
  | cons y ys ih =>
    simp only [insertD]
    split
    · exact List.Perm.refl _
    · exact (List.Perm.cons y ih).trans (List.Perm.swap x y ys)

theorem sortD_perm (key : α → ℚ) (l : List α) : List.Perm (sortD key l) l := by
  induction l with
  | nil => exact List.Perm.refl _
  | cons x xs ih =>
    exact (insertD_perm key x (sortD key xs)).trans (List.Perm.cons x ih)

theorem sortD_length (key : α → ℚ) (l : List α) : (sortD key l).length = l.length :=
  (sortD_perm key l).length_eq

theorem insertD_sorted (key : α → ℚ) (x : α) {l : List α}
    (h : l.Sorted (fun a b => key b ≤ key a)) :
    (insertD key x l).Sorted (fun a b => key b ≤ key a) := by
  induction l with
  | nil => simp [insertD]
  | cons y ys ih =>
    rw [List.sorted_cons] at h
    simp only [insertD]
    split
    case isTrue hc =>
      rw [List.sorted_cons]
      refine ⟨?_, List.sorted_cons.mpr h⟩
      intro b hb
      rcases List.mem_cons.mp hb with rfl | hb2
      · exact hc
      · exact (h.1 b hb2).trans hc
    case isFalse hc =>
      rw [List.sorted_cons]
      refine ⟨?_, ih h.2⟩
      intro b hb
      rcases List.mem_cons.mp ((insertD_perm key x ys).mem_iff.mp hb) with rfl | hb2
      · exact le_of_lt (lt_of_not_le hc)
      · exact h.1 b hb2

theorem sortD_sorted (key : α → ℚ) (l : List α) :
    (sortD key l).Sorted (fun a b => key b ≤ key a) := by
  induction l with
  | nil => simp [sortD]
  | cons x xs ih => exact insertD_sorted key x ih

theorem insertD_filter_ne (key : α → ℚ) {c : ℚ} {x : α} (hx : ¬ key x = c) (l : List α) :
    (insertD key x l).filter (fun a => decide (key a = c))
      = l.filter (fun a => decide (key a = c)) := by
  induction l with
  | nil => simp [insertD, hx]
  | cons y ys ih =>
    simp only [insertD]
    split
    · simp [List.filter_cons, hx]
    · simp only [List.filter_cons, ih]

theorem insertD_filter_eq (key : α → ℚ) {c : ℚ} {x : α} (hx : key x = c) {l : List α}
    (hs : l.Sorted (fun a b => key b ≤ key a)) :
    (insertD key x l).filter (fun a => decide (key a = c))
      = x :: l.filter (fun a => decide (key a = c)) := by
  induction l with
  | nil => simp [insertD, hx]
  | cons y ys ih =>
    rw [List.sorted_cons] at hs
    simp only [insertD]
    split
    case isTrue hc => simp [List.filter_cons, hx]
    case isFalse hc =>
      have hy : ¬ key y = c := by
        intro h
        exact hc (by rw [h, ← hx])
      simp [List.filter_cons, hy, ih hs.2]

/-- Stability of `sortD`: the sorted list restricted to any fixed key value
is the input list restricted to that key value, i.e. ties keep their
original relative order. -/
theorem sortD_filter (key : α → ℚ) (c : ℚ) (l : List α) :
    (sortD key l).filter (fun a => decide (key a = c))
      = l.filter (fun a => decide (key a = c)) := by
  induction l with
  | nil => rfl
  | cons x xs ih =>
    simp only [sortD]
    by_cases hx : key x = c
    · rw [insertD_filter_eq key hx (sortD_sorted key xs), ih, List.filter_cons]
      simp [hx]
    · rw [insertD_filter_ne key hx, ih, List.filter_cons]
      simp [hx]

/-! ## Helper lemmas: the scheduler tick -/

theorem tick_cursor (distOf : Agent → ℚ) (upd : Agent → Agent) (m : AIManagerState) :
    (tick distOf upd m).currentBatchIndex
      = (m.currentBatchIndex + processedCount m) % max 1 m.enemies.length := by
  simp [tick, processedCount, sortEnemiesByPriority, List.length_take,
    List.length_drop, sortD_length]

theorem tick_enemies_length (distOf : Agent → ℚ) (upd : Agent → Agent)
    (m : AIManagerState) :
    (tick distOf upd m).enemies.length = m.enemies.length := by
  simp [tick]

theorem tick_processed_le (m : AIManagerState) : processedCount m ≤ AI_BATCH_SIZE :=
  Nat.min_le_left _ _

/-! ## Helper lemmas: the health/armor invariant -/

/-- The armor, health and maxHealth equations of `takeDamage` for a live
agent. -/
theorem takeDamage_armor_health (a : Agent) (d : ℚ) (hAlive : a.isAlive = true) :
    (takeDamage a d).armor
        = a.armor - (if 0 < a.armor then min (d * (1/2)) a.armor else 0) ∧
    (takeDamage a d).health
        = max 0 (a.health - (d - (if 0 < a.armor then min (d * (1/2)) a.armor else 0))) ∧
    (takeDamage a d).maxHealth = a.maxHealth := by
  have hA : ¬ a.isAlive = false := by simp [hAlive]
  by_cases hz : max 0 (a.health - (d - (if 0 < a.armor then min (d * (1/2)) a.armor else 0))) ≤ 0
  · simp only [takeDamage, hA, if_false, if_pos hz]
    simp [die]
  · simp only [takeDamage, hA, if_false, if_neg hz]
    simp

theorem takeDamage_inv {a : Agent} {d : ℚ} (h : AgentInv a) (hd : 0 ≤ d) :
    AgentInv (takeDamage a d) := by
  obtain ⟨h0, h1, h2⟩ := h
  have hmax : 0 ≤ a.maxHealth := le_trans h0 h1
  by_cases ha : a.isAlive = false
  · simp only [takeDamage, ha, if_true]
    exact ⟨h0, h1, h2⟩
  · have hAlive : a.isAlive = true := by revert ha; cases a.isAlive <;> simp
    have harm := takeDamage_armor_health a d hAlive
    set adm := if 0 < a.armor then min (d * (1/2)) a.armor else 0 with hADdef
    have hb : 0 ≤ adm ∧ adm ≤ d ∧ adm ≤ a.armor := by
      rw [hADdef]
      split
      next hpos =>
        exact ⟨le_min (by linarith) (le_of_lt hpos),
               le_trans (min_le_left _ _) (by linarith), min_le_right _ _⟩
      next hpos => exact ⟨le_refl 0, hd, h2⟩
    refine ⟨?_, ?_, ?_⟩
    · rw [harm.2.1]
      exact le_max_left _ _
    · rw [harm.2.1, harm.2.2]
      apply max_le hmax
      have := hb.2.1
      linarith
    · rw [harm.1]
      have := hb.2.2
      linarith

theorem respawn_inv {a : Agent} (h : AgentInv a) (p : Vec3) :
    AgentInv (respawn a p) := by
  obtain ⟨h0, h1, _⟩ := h
  exact ⟨by simpa [respawn] using le_trans h0 h1, by simp [respawn], by simp [respawn]⟩

theorem applyOps_inv {ops : List AgentOp} :
    ∀ {a : Agent}, AgentInv a → (∀ op ∈ ops, opOk op) → AgentInv (applyOps a ops) := by
  induction ops with
  | nil => intro a h _; exact h
  | cons op rest ih =>
    intro a h hops
    have hop := hops op (List.mem_cons_self _ _)
    have hrest : ∀ o ∈ rest, opOk o := fun o ho => hops o (List.mem_cons_of_mem _ ho)
    cases op with
    | damage d => exact ih (takeDamage_inv h hop) hrest
    | respawnAt p => exact ih (respawn_inv h p) hrest

/-! ## Helper lemmas: the group-alert pass -/

theorem alertOne_skip (nrm : Vec3 → Vec3) (off : Vec3) (playerPos : Vec3)
    (srcId : ℕ) (srcPos : Vec3) (e : Agent)
    (h : e.id = srcId ∨ e.isAlive = false ∨
      ¬ Vec3.normSq (Vec3.sub e.position srcPos) < 30 * 30) :
    alertOne nrm off playerPos srcId srcPos e = e := by
  rcases h with h | h | h
  · simp [alertOne, h]
  · simp [alertOne, h]
  · by_cases hs : e.id = srcId ∨ e.isAlive = false
    · simp [alertOne, hs]
    · simp [alertOne, hs, h]

theorem alertOne_near (nrm : Vec3 → Vec3) (off : Vec3) (playerPos : Vec3)
    (srcId : ℕ) (srcPos : Vec3) (e : Agent)
    (hid : ¬ e.id = srcId) (hal : e.isAlive = true)
    (hnear : Vec3.normSq (Vec3.sub e.position srcPos) < 30 * 30) :
    (alertOne nrm off playerPos srcId srcPos e).state = .ALERT ∧
    (alertOne nrm off playerPos srcId srcPos e).alertTarget = some playerPos ∧
    (alertOne nrm off playerPos srcId srcPos e).id = e.id ∧
    (alertOne nrm off playerPos srcId srcPos e).isAlive = e.isAlive ∧
    (alertOne nrm off playerPos srcId srcPos e).health = e.health := by
  have hdead : ¬ e.isAlive = false := by simp [hal]
  have hskip : ¬ (e.id = srcId ∨ e.isAlive = false) := by
    rintro (h | h)
    · exact hid h
    · exact hdead h
  by_cases hst : e.state = .ALERT <;> by_cases hfl : e.etype = "flanker" <;>
    (simp only [alertOne, hskip, if_false, hnear, if_true,
      transitionTo, setAlertTarget, executeFlankManuver, moveToward, hst, hfl];
     first
      | (split_ifs <;> simp [hst])
      | simp [hst])

/-! ## Claim theorems -/

/-- **C3** Damage mitigation order of `AICharacter.takeDamage`: for every
live agent and amount `d ≥ 0`, armor first absorbs
`min(d × 0.5, armor)` (when `armor > 0`), the remainder is subtracted from
health clamped at 0, and `die()` runs — leaving velocity zeroed, the attack
flag cleared and the state DEAD — exactly when the clamped health is 0; in
particular `takeDamage(30)` with `armor = 20` removes 15 armor and 15
health. -/
theorem C3_takeDamage_mitigation (a : Agent) (d : ℚ)
    (hAlive : a.isAlive = true) (hLive : a.state ≠ .DEAD) (_hd : 0 ≤ d) :
    (takeDamage a d).armor
        = a.armor - (if 0 < a.armor then min (d * (1/2)) a.armor else 0) ∧
    (takeDamage a d).health
        = max 0 (a.health - (d - (if 0 < a.armor then min (d * (1/2)) a.armor else 0))) ∧
    ((takeDamage a d).state = .DEAD ↔ (takeDamage a d).health = 0) ∧
    ((takeDamage a d).isAlive = false ↔ (takeDamage a d).health = 0) ∧
    ((takeDamage a d).state = .DEAD →
        (takeDamage a d).velocity = Vec3.zero ∧ (takeDamage a d).isAttacking = false) ∧
    ((takeDamage { a with armor := 20 } 30).armor = 5 ∧
     (takeDamage { a with armor := 20 } 30).health = max 0 (a.health - 15)) := by
  have hA : ¬ a.isAlive = false := by simp [hAlive]
  have hmain : (takeDamage a d).armor
        = a.armor - (if 0 < a.armor then min (d * (1/2)) a.armor else 0) ∧
      (takeDamage a d).health
        = max 0 (a.health - (d - (if 0 < a.armor then min (d * (1/2)) a.armor else 0))) ∧
      ((takeDamage a d).state = .DEAD ↔ (takeDamage a d).health = 0) ∧
      ((takeDamage a d).isAlive = false ↔ (takeDamage a d).health = 0) ∧
      ((takeDamage a d).state = .DEAD →
        (takeDamage a d).velocity = Vec3.zero ∧ (takeDamage a d).isAttacking = false) := by
    simp only [takeDamage, hA, if_false]
    set armorDamage := if 0 < a.armor then min (d * (1/2)) a.armor else 0 with hAD
    set health2 := max 0 (a.health - (d - armorDamage)) with hH2
    have hnn : 0 ≤ health2 := le_max_left _ _
    by_cases hz : health2 ≤ 0
    · have h0 : health2 = 0 := le_antisymm hz hnn
      simp [hz, die, h0]
    · have h0 : ¬ health2 = 0 := fun h => hz (le_of_eq h)
      simp [hz, h0, hLive, hAlive]
  have harm := takeDamage_armor_health { a with armor := 20 } 30 hAlive
  refine ⟨hmain.1, hmain.2.1, hmain.2.2.1, hmain.2.2.2.1, hmain.2.2.2.2, ?_, ?_⟩
  · have h5 := harm.1
    norm_num [min_def] at h5
    exact h5
  · have hh := harm.2.1
    norm_num [min_def] at hh ⊢
    exact hh

/-- **C4** Health/armor invariant: starting from health in `[0, maxHealth]`
and armor `≥ 0`, any finite sequence of `takeDamage` calls with nonnegative
amounts interleaved with `respawn` calls keeps health in `[0, maxHealth]`
and armor `≥ 0`. -/
theorem C4_health_armor_invariant (a : Agent) (ops : List AgentOp)
    (h0 : 0 ≤ a.health) (h1 : a.health ≤ a.maxHealth) (h2 : 0 ≤ a.armor)
    (hops : ∀ op ∈ ops, opOk op) :
    0 ≤ (applyOps a ops).health ∧
    (applyOps a ops).health ≤ (applyOps a ops).maxHealth ∧
    0 ≤ (applyOps a ops).armor :=
  applyOps_inv ⟨h0, h1, h2⟩ hops

/-- Witness for C3: Scenario D instance, `takeDamage(30)` at `armor = 20`. -/
theorem C3_witness :
    (takeDamage g20 30).isAlive = false ↔ (takeDamage g20 30).health = 0 :=
  (C3_takeDamage_mitigation g20 30 (by decide) (by decide) (by norm_num)).2.2.2.1

/-- Witness for C4: a concrete damage/respawn/overkill sequence. -/
theorem C4_witness :
    0 ≤ (applyOps g20 opsW).health ∧
    (applyOps g20 opsW).health ≤ (applyOps g20 opsW).maxHealth ∧
    0 ≤ (applyOps g20 opsW).armor :=
  C4_health_armor_invariant g20 opsW (by decide) (by decide) (by decide)
    (by
      intro op hop
      simp only [opsW, List.mem_cons, List.not_mem_nil, or_false] at hop
      rcases hop with rfl | rfl | rfl
      · norm_num [opOk]
      · simp [opOk]
      · norm_num [opOk])

/-- **C5** The vision-cone rule of `PerceptionSystem.checkVision`: beyond
`viewDistance` nothing is visible; otherwise visibility holds iff the
forward · direction dot meets `cos(viewAngle/2)`, or meets
`cos(peripheralAngle/2)` with distance below half the view distance.
Consequently a target directly ahead (dot = 1) within range is visible, a
target outside both half-angle cones is never visible, and a target only in
the peripheral cone at distance ≥ half the view distance is not visible. -/
theorem C5_checkVision_rule (cfg : PerceptionConfig) (dist dot : ℚ) :
    (checkVision cfg dist dot = true ↔
      (dist ≤ cfg.viewDistance ∧
        (cfg.cosHalfView ≤ dot ∨
          (cfg.cosHalfPeriph ≤ dot ∧ dist < cfg.viewDistance * (1/2))))) ∧
    (cfg.viewDistance < dist → checkVision cfg dist dot = false) ∧
    (cfg.cosHalfView ≤ 1 → dist ≤ cfg.viewDistance → checkVision cfg dist 1 = true) ∧
    (dot < cfg.cosHalfView → dot < cfg.cosHalfPeriph →
      checkVision cfg dist dot = false) ∧
    (dot < cfg.cosHalfView → cfg.cosHalfPeriph ≤ dot →
      cfg.viewDistance * (1/2) ≤ dist → checkVision cfg dist dot = false) := by
  refine ⟨?_, ?_, ?_, ?_, ?_⟩
  · simp only [checkVision]
    split
    next h1 =>
      simp only [Bool.false_eq_true, false_iff]
      rintro ⟨hle, _⟩
      exact absurd h1 (not_lt.mpr hle)
    next h1 =>
      split
      next h2 => simp [not_lt.mp h1, h2]
      next h2 =>
        split
        next h3 =>
          simp only [decide_eq_true_eq]
          constructor
          · intro hlt
            exact ⟨not_lt.mp h1, Or.inr ⟨h3, hlt⟩⟩
          · rintro ⟨_, hvis | ⟨_, hlt⟩⟩
            · exact absurd hvis h2
            · exact hlt
        next h3 =>
          simp only [Bool.false_eq_true, false_iff]
          rintro ⟨_, hvis | ⟨hper, _⟩⟩
          · exact h2 hvis
          · exact h3 hper
  · intro h1
    simp [checkVision, h1]
  · intro hc h1
    simp [checkVision, not_lt.mpr h1, hc]
  · intro h2 h3
    simp [checkVision, not_le.mpr h2, not_le.mpr h3]
  · intro h2 h3 hfar
    simp only [checkVision, h3, if_true, not_le.mpr h2, if_false]
    split
    next => rfl
    next => simp only [decide_eq_false_iff_not, not_lt]; linarith

/-- Witness for C5: concrete instances of the three visibility consequences
at `viewDistance 30`, `cosHalfView 0.7`, `cosHalfPeriph -0.3`. -/
theorem C5_witness :
    checkVision cfgW 31 0 = false ∧
    checkVision cfgW 10 1 = true ∧
    checkVision cfgW 20 0 = false :=
  ⟨(C5_checkVision_rule cfgW 31 0).2.1 (by norm_num [cfgW]),
   (C5_checkVision_rule cfgW 10 1).2.2.1 (by norm_num [cfgW]) (by norm_num [cfgW]),
   (C5_checkVision_rule cfgW 20 0).2.2.2.2 (by norm_num [cfgW]) (by norm_num [cfgW])
     (by norm_num [cfgW])⟩

/-- **C6** The scheduler priority score: `getPriority` equals the sum of
+3 for COMBAT/CHASE, +2 for ALERT, +1 for health below 30% of max, and the
proximity term `max 0 ((100 − dist)/100)`; the same agent at the same
distance scores at least as much in COMBAT as in IDLE; and
`sortEnemiesByPriority` orders the registry by descending score, is a
permutation of the registry, and breaks ties by registry iteration order
(the score-restricted sublists are preserved — stability). -/
theorem C6_priority_score_and_ordering :
    (∀ (e : Agent) (dist : ℚ),
      getPriority e dist =
        (if e.state = .COMBAT ∨ e.state = .CHASE then (3:ℚ) else 0)
        + (if e.state = .ALERT then (2:ℚ) else 0)
        + (if e.health < e.maxHealth * (3/10) then (1:ℚ) else 0)
        + max 0 ((100 - dist) / 100)) ∧
    (∀ (e : Agent) (dist : ℚ),
      getPriority { e with state := .IDLE } dist
        ≤ getPriority { e with state := .COMBAT } dist) ∧
    (∀ (distOf : Agent → ℚ) (l : List Agent),
      (sortEnemiesByPriority distOf l).Sorted
        (fun a b => getPriority b (distOf b) ≤ getPriority a (distOf a))) ∧
    (∀ (distOf : Agent → ℚ) (l : List Agent),
      List.Perm (sortEnemiesByPriority distOf l) l) ∧
    (∀ (distOf : Agent → ℚ) (l : List Agent) (c : ℚ),
      (sortEnemiesByPriority distOf l).filter
          (fun e => decide (getPriority e (distOf e) = c))
        = l.filter (fun e => decide (getPriority e (distOf e) = c))) := by
  refine ⟨?_, ?_, ?_, ?_, ?_⟩
  · intro e dist
    cases hs : e.state <;> simp [getPriority, hs] <;> split <;> ring
  · intro e dist
    have hM := le_max_left (0:ℚ) ((100 - dist) / 100)
    by_cases hh : e.health < e.maxHealth * (3/10)
    · simp [getPriority, hh]
    · simp [getPriority, hh]
  · intro distOf l
    exact sortD_sorted _ l
  · intro distOf l
    exact sortD_perm _ l
  · intro distOf l c
    exact sortD_filter _ c l

/-- **C10** `AICharacter.update` on a live agent recomputes the state purely
from the current physical condition — COVER if in cover, else COMBAT if the
stored perception has line of sight, else CHASE if speed > 3 (squared: 9),
else PATROL if speed > 0.1 (squared: 1/100), else IDLE — so no previously
set state survives, and after `update` the state is never ALERT, RETREAT or
DEAD. -/
theorem C10_update_recomputes_state (a : Agent) (dt : ℚ)
    (hAlive : a.isAlive = true) :
    (update a dt).state =
      (if a.isInCover then .COVER
       else if a.perceptionLOS then .COMBAT
       else if (9:ℚ) < Vec3.normSq a.velocity then .CHASE
       else if (1/100:ℚ) < Vec3.normSq a.velocity then .PATROL
       else .IDLE) ∧
    (update a dt).state ≠ .ALERT ∧
    (update a dt).state ≠ .RETREAT ∧
    (update a dt).state ≠ .DEAD := by
  have hA : ¬ a.isAlive = false := by simp [hAlive]
  have hstate : (update a dt).state =
      (if a.isInCover then AIState.COVER
       else if a.perceptionLOS then .COMBAT
       else if (9:ℚ) < Vec3.normSq a.velocity then .CHASE
       else if (1/100:ℚ) < Vec3.normSq a.velocity then .PATROL
       else .IDLE) := by
    by_cases h1 : a.isInCover
    · simp [update, updateState, hA, h1]
    · by_cases h2 : a.perceptionLOS
      · simp [update, updateState, hA, h1, h2]
      · by_cases h3 : (9:ℚ) < Vec3.normSq a.velocity
        · have hm : ((100:ℚ))⁻¹ < Vec3.normSq a.velocity := by
            rw [inv_eq_one_div]
            linarith
          simp [update, updateState, hA, h1, h2, h3, hm]
        · by_cases h4 : ((100:ℚ))⁻¹ < Vec3.normSq a.velocity
          · simp [update, updateState, hA, h1, h2, h3, h4]
          · simp [update, updateState, hA, h1, h2, h3, h4]
  refine ⟨hstate, ?_, ?_, ?_⟩ <;> rw [hstate] <;> split_ifs <;> simp

/-- Witness for C10: a fast live agent ends in CHASE, never in ALERT. -/
theorem C10_witness : (update chaseW 1).state ≠ .ALERT :=
  (C10_update_recomputes_state chaseW 1 (by decide)).2.1

/-- **C9 (amended)** What dead-state actually blocks: a dead agent is left
unchanged by `update` and `takeDamage` until `respawn` resets health, armor
and state — but `transitionTo` has no liveness guard, so calling it on a
dead agent with any state different from the current one does change the
state. -/
theorem C9_dead_state_guards (a : Agent) (hdead : a.isAlive = false) :
    (∀ d, takeDamage a d = a) ∧
    (∀ dt, update a dt = a) ∧
    (∀ (nrm : Vec3 → Vec3) (s : AIState), s ≠ a.state →
      (transitionTo nrm a s).state = s) ∧
    (∀ p, (respawn a p).isAlive = true ∧ (respawn a p).health = a.maxHealth ∧
      (respawn a p).armor = 0 ∧ (respawn a p).state = .IDLE) := by
  refine ⟨?_, ?_, ?_, ?_⟩
  · intro d
    simp [takeDamage, hdead]
  · intro dt
    simp [update, hdead]
  · intro nrm s hs
    have hne : ¬ a.state = s := fun h => hs h.symm
    cases s <;>
      (simp [transitionTo, hne, startPatrol, startRetreat]; try (split_ifs <;> rfl))
  · intro p
    simp [respawn]

/-- Witness for C9: the dead agent `deadC` accepts a transition to ALERT. -/
theorem C9_witness : (transitionTo (fun v => v) deadC .ALERT).state = .ALERT :=
  (C9_dead_state_guards deadC (by decide)).2.2.1 (fun v => v) .ALERT (by decide)

/-- Counterexample for C9 as stated: `transitionTo` on the dead agent
`deadC` is *not* rejected — the state changes to COMBAT and the COMBAT
entry action (setting the attack flag) runs. -/
theorem C9_counterexample :
    deadC.isAlive = false ∧ deadC.state = .DEAD ∧
    (transitionTo (fun v => v) deadC .COMBAT).state = .COMBAT ∧
    (transitionTo (fun v => v) deadC .COMBAT).isAttacking = true := by
  refine ⟨by decide, by decide, ?_, ?_⟩
  · simp [transitionTo, deadC, liveGrunt]
  · simp [transitionTo, deadC, liveGrunt]

/-- **C1** The cover hysteresis is dead code: `findBestCover` reads
`bestCover.score`, a property `CoverSpot` does not have, so the comparison
is `NaN < 0.2` — always false — and the result never depends on the
currently occupied cover. At the spec's own failing input (current score
0.5, sole candidate score 0.69, margin exactly 0.19) the function returns
the candidate instead of keeping the current cover, contradicting both the
claim and the source's comment at CoverSystem.ts line 125. -/
theorem C1_hysteresis_never_fires :
    (∀ (covers : List CoverSpot) (cur : CoverSpot),
      findBestCover covers (some cur) = findBestCover covers none) ∧
    scoreCover curSpot = 1/2 ∧
    scoreCover candSpot - scoreCover curSpot = 19/100 ∧
    candSpot ≠ curSpot ∧
    findBestCover [candSpot] (some curSpot) = some candSpot := by
  have hLH : CoverType.LOW ≠ CoverType.HIGH := by decide
  have havail : getAvailableCovers [candSpot] = [candSpot] := by
    norm_num [getAvailableCovers, candSpot]
  refine ⟨?_, by norm_num [scoreCover, curSpot, max_def, hLH],
    by norm_num [scoreCover, curSpot, candSpot, max_def, hLH],
    by simp [candSpot, curSpot],
    by simp [findBestCover, havail, sortD, insertD, jsLtNaN, jsSubUndef, coverScoreField]⟩
  intro covers cur
  simp only [findBestCover]
  split
  next => rfl
  next =>
    cases hb : (sortD (fun p => p.2) ((getAvailableCovers covers).map
        (fun c => (c, scoreCover c)))).head? with
    | none => simp [hb]
    | some p => simp [hb, jsLtNaN, jsSubUndef, coverScoreField]

/-- **C2 (amended)** All registered agents share the one `PerceptionSystem`
instance the `AIManager` constructor creates, so perception memory is global,
not per-agent: after the damage pipeline records a hit at position `p` and
time `t`, the next perception update computed for *any* agent `e` — hit or
not — reports `isTakingDamage` by the shared 1000 ms window from `t` and
reports `p` as the last damage position. -/
theorem C2_shared_perception_memory (m : AIManagerState) (p : Vec3) (t : ℚ)
    (e : Agent) (now dist dot : ℚ) :
    (recordDamageM m p t).perceptionShared.lastDamageTime = t ∧
    (recordDamageM m p t).perceptionShared.lastDamagePosition = some p ∧
    (perceiveFor (recordDamageM m p t) e now dist dot).2.isTakingDamage
      = decide (now - t < 1000) ∧
    (perceiveFor (recordDamageM m p t) e now dist dot).2.lastDamagePosition = some p := by
  refine ⟨rfl, rfl, ?_, ?_⟩ <;>
    · simp only [perceiveFor, perceptionUpdate, recordDamageM, recordDamage]
      split_ifs <;> rfl

/-- Counterexample for C2 as stated: agent B's perception result is *not*
independent of updates performed for agent A.  A `recordDamage` at time 500
(a hit on A) flips B's next `isTakingDamage` from false to true and changes
B's reported last damage position; a sighting update performed for A at time
1000 changes B's reported `timeSinceLastSeen` at time 1500 from 1500 to
500. -/
theorem C2_counterexample :
    (perceiveFor (recordDamageM m2agents ⟨7, 0, 0⟩ 500) agentB 1000 100 0).2.isTakingDamage
        = true ∧
    (perceiveFor m2agents agentB 1000 100 0).2.isTakingDamage = false ∧
    (perceiveFor (recordDamageM m2agents ⟨7, 0, 0⟩ 500) agentB 1000 100 0).2.lastDamagePosition
        = some ⟨7, 0, 0⟩ ∧
    (perceiveFor m2agents agentB 1000 100 0).2.lastDamagePosition = none ∧
    (perceiveFor (perceiveFor m2agents agentA 1000 10 1).1 agentB 1500 100 0).2.timeSinceLastSeen
        = 500 ∧
    (perceiveFor m2agents agentB 1500 100 0).2.timeSinceLastSeen = 1500 := by
  have hvA : checkVision cfgW 10 1 = true := by norm_num [checkVision, cfgW]
  have hvB : checkVision cfgW 100 0 = false := by norm_num [checkVision, cfgW]
  have hhA : checkHearing cfgW 10 = true := by norm_num [checkHearing, cfgW]
  have hhB : checkHearing cfgW 100 = false := by norm_num [checkHearing, cfgW]
  refine ⟨?_, ?_, ?_, ?_, ?_, ?_⟩ <;>
    norm_num [perceiveFor, perceptionUpdate, recordDamageM, recordDamage,
      m2agents, agentA, agentB, liveGrunt, hvA, hvB, hhA, hhB]

/-- **C7 (amended)** Scheduler batching and cursor: per tick the number of
visited entries is at most the batch size (10), and the cursor advances by
exactly that number modulo `max 1 (registered agent count)` — the registry
retains dead agents, and they count both in the window and in the modulus.
In the 50-live-agent scenario with cursor 0, exactly 10 entries are
processed per tick; the cursor is 10 after the first tick and returns to 0
after 5 ticks. -/
theorem C7_batching_and_cursor :
    (∀ (distOf : Agent → ℚ) (upd : Agent → Agent) (m : AIManagerState),
      processedCount m ≤ AI_BATCH_SIZE ∧
      (tick distOf upd m).currentBatchIndex
        = (m.currentBatchIndex + processedCount m) % max 1 m.enemies.length ∧
      (tick distOf upd m).enemies.length = m.enemies.length) ∧
    processedCount m50 = 10 ∧
    (step50 m50).currentBatchIndex = 10 ∧
    processedCount (step50 m50) = 10 ∧
    (step50 (step50 m50)).currentBatchIndex = 20 ∧
    processedCount (step50 (step50 m50)) = 10 ∧
    (step50 (step50 (step50 m50))).currentBatchIndex = 30 ∧
    processedCount (step50 (step50 (step50 m50))) = 10 ∧
    (step50 (step50 (step50 (step50 m50)))).currentBatchIndex = 40 ∧
    processedCount (step50 (step50 (step50 (step50 m50)))) = 10 ∧
    (step50 (step50 (step50 (step50 (step50 m50))))).currentBatchIndex = 0 := by
  have hstep : ∀ m : AIManagerState, m.enemies.length = 50 →
      (step50 m).enemies.length = 50 ∧
      (step50 m).currentBatchIndex
        = (m.currentBatchIndex + min 10 (50 - m.currentBatchIndex)) % 50 ∧
      processedCount m = min 10 (50 - m.currentBatchIndex) := by
    intro m hl
    refine ⟨?_, ?_, ?_⟩
    · simp only [step50]
      rw [tick_enemies_length, hl]
    · simp only [step50]
      rw [tick_cursor]
      simp [processedCount, hl, AI_BATCH_SIZE]
    · simp [processedCount, hl, AI_BATCH_SIZE]
  have hlen0 : m50.enemies.length = 50 := by simp [m50]
  have hc0 : m50.currentBatchIndex = 0 := rfl
  obtain ⟨hl1, hc1e, hp0⟩ := hstep m50 hlen0
  rw [hc0] at hc1e hp0
  have hc1 : (step50 m50).currentBatchIndex = 10 := by rw [hc1e]; decide
  obtain ⟨hl2, hc2e, hp1⟩ := hstep (step50 m50) hl1
  rw [hc1] at hc2e hp1
  have hc2 : (step50 (step50 m50)).currentBatchIndex = 20 := by rw [hc2e]; decide
  obtain ⟨hl3, hc3e, hp2⟩ := hstep (step50 (step50 m50)) hl2
  rw [hc2] at hc3e hp2
  have hc3 : (step50 (step50 (step50 m50))).currentBatchIndex = 30 := by
    rw [hc3e]; decide
  obtain ⟨hl4, hc4e, hp3⟩ := hstep (step50 (step50 (step50 m50))) hl3
  rw [hc3] at hc4e hp3
  have hc4 : (step50 (step50 (step50 (step50 m50)))).currentBatchIndex = 40 := by
    rw [hc4e]; decide
  obtain ⟨hl5, hc5e, hp4⟩ := hstep (step50 (step50 (step50 (step50 m50)))) hl4
  rw [hc4] at hc5e hp4
  have hc5 : (step50 (step50 (step50 (step50 (step50 m50))))).currentBatchIndex = 0 := by
    rw [hc5e]; decide
  exact ⟨fun distOf upd m =>
      ⟨tick_processed_le m, tick_cursor distOf upd m, tick_enemies_length distOf upd m⟩,
    by rw [hp0]; decide, hc1, by rw [hp1]; decide, hc2, by rw [hp2]; decide, hc3,
    by rw [hp3]; decide, hc4, by rw [hp4]; decide, hc5⟩

/-- Counterexample for C7 as stated: with three registered agents of which
one is dead (the registry keeps dead agents), cursor 1 and batch size 10,
the window processes exactly the two live agents, yet the cursor becomes
`(1 + 2) % 3 = 0` — not `(1 + 2) % 2 = 1` as "modulo the live agent count"
requires. -/
theorem C7_counterexample :
    ((sortEnemiesByPriority distOf3 m3.enemies).drop m3.currentBatchIndex).take
        AI_BATCH_SIZE = [idleFar1, idleFar2] ∧
    idleFar1.isAlive = true ∧ idleFar2.isAlive = true ∧
    (m3.enemies.filter (fun e => e.isAlive)).length = 2 ∧
    m3.currentBatchIndex = 1 ∧
    (tick distOf3 id m3).currentBatchIndex = 0 ∧
    (1 + 2) % 2 = 1 := by
  have hne1 : AIState.DEAD ≠ AIState.COMBAT := by decide
  have hne2 : AIState.DEAD ≠ AIState.CHASE := by decide
  have hne3 : AIState.DEAD ≠ AIState.ALERT := by decide
  have hne4 : AIState.IDLE ≠ AIState.COMBAT := by decide
  have hne5 : AIState.IDLE ≠ AIState.CHASE := by decide
  have hne6 : AIState.IDLE ≠ AIState.ALERT := by decide
  have hpD : getPriority deadScout (distOf3 deadScout) = 2 := by
    norm_num [getPriority, deadScout, liveGrunt, distOf3, max_def, hne1, hne2, hne3]
  have hp1 : getPriority idleFar1 (distOf3 idleFar1) = 0 := by
    norm_num [getPriority, idleFar1, liveGrunt, distOf3, max_def, hne4, hne5, hne6]
  have hp2 : getPriority idleFar2 (distOf3 idleFar2) = 0 := by
    norm_num [getPriority, idleFar2, liveGrunt, distOf3, max_def, hne4, hne5, hne6]
  have hsort : sortEnemiesByPriority distOf3 [deadScout, idleFar1, idleFar2]
      = [deadScout, idleFar1, idleFar2] := by
    norm_num [sortEnemiesByPriority, sortD, insertD, hpD, hp1, hp2]
  have henem : m3.enemies = [deadScout, idleFar1, idleFar2] := rfl
  refine ⟨?_, by decide, by decide, ?_, rfl, ?_, by decide⟩
  · rw [henem, hsort]
    rfl
  · simp [m3, deadScout, idleFar1, idleFar2, liveGrunt]
  · simp only [tick, henem, hsort, AI_BATCH_SIZE]
    rfl

/-- **C8 (amended)** The per-source alert pass of `alertNearbyEnemies`
targets *every* nearby live agent regardless of its current state: an entry
other than the source that is alive and strictly within 30 units is set to
ALERT and given the alert target (its id, liveness and health unchanged),
whatever state it was in; the source entry, dead entries and entries at 30
or more units are returned unchanged. -/
theorem C8_alert_pass_targets_all_nearby (nrm : Vec3 → Vec3) (offs : ℕ → Vec3)
    (playerPos : Vec3) (srcId : ℕ) (srcPos : Vec3) (enemies : List Agent)
    (i : ℕ) (e : Agent) (he : enemies[i]? = some e) :
    ((e.id = srcId ∨ e.isAlive = false ∨
        ¬ Vec3.normSq (Vec3.sub e.position srcPos) < 30 * 30) →
      (alertNearbyEnemies nrm offs playerPos srcId srcPos enemies)[i]? = some e) ∧
    (¬ e.id = srcId → e.isAlive = true →
      Vec3.normSq (Vec3.sub e.position srcPos) < 30 * 30 →
      ∃ e2, (alertNearbyEnemies nrm offs playerPos srcId srcPos enemies)[i]? = some e2 ∧
        e2.state = .ALERT ∧ e2.alertTarget = some playerPos ∧
        e2.id = e.id ∧ e2.isAlive = e.isAlive ∧ e2.health = e.health) := by
  have hres : (alertNearbyEnemies nrm offs playerPos srcId srcPos enemies)[i]?
      = some (alertOne nrm (offs i) playerPos srcId srcPos e) := by
    simp [alertNearbyEnemies, List.getElem?_map, List.getElem?_enum, he]
  constructor
  · intro h
    rw [hres, alertOne_skip nrm (offs i) playerPos srcId srcPos e h]
  · intro hid hal hnear
    obtain ⟨h1, h2, h3, h4, h5⟩ :=
      alertOne_near nrm (offs i) playerPos srcId srcPos e hid hal hnear
    exact ⟨alertOne nrm (offs i) playerPos srcId srcPos e, hres, h1, h2, h3, h4, h5⟩

/-- Witness for C8: a live COMBAT agent 3 units from the source is alerted by
the pass. -/
theorem C8_witness :
    ∃ e2, (alertNearbyEnemies (fun v => v) (fun _ => Vec3.zero) ⟨9, 0, 0⟩ 0 Vec3.zero
        [combatNear])[0]? = some e2 ∧
      e2.state = .ALERT ∧ e2.alertTarget = some ⟨9, 0, 0⟩ ∧
      e2.id = combatNear.id ∧ e2.isAlive = combatNear.isAlive ∧
      e2.health = combatNear.health :=
  (C8_alert_pass_targets_all_nearby (fun v => v) (fun _ => Vec3.zero) ⟨9, 0, 0⟩ 0
      Vec3.zero [combatNear] 0 combatNear rfl).2
    (by decide) (by decide)
    (by norm_num [combatNear, liveGrunt, Vec3.normSq, Vec3.sub, Vec3.zero])

/-- Counterexample for C8 as stated: in the full group-alert pass
`updateGroupAI`, the live agent `combatMate` — whose state is COMBAT, not
IDLE or PATROL — is transitioned to ALERT by a seeing source one unit away,
so agents in other live states are *not* left unchanged. -/
theorem C8_counterexample :
    combatMate.state = .COMBAT ∧ combatMate.isAlive = true ∧
    ((updateGroupAI (fun v => v) offsZ ⟨5, 0, 0⟩ [srcSeer, combatMate])[1]?).map
        (fun e => e.state) = some .ALERT ∧
    ((updateGroupAI (fun v => v) offsZ ⟨5, 0, 0⟩ [srcSeer, combatMate])[1]?).map
        (fun e => e.alertTarget) = some (some ⟨5, 0, 0⟩) := by
  have hnear : Vec3.normSq (Vec3.sub combatMate.position srcSeer.position) < 30 * 30 := by
    norm_num [combatMate, srcSeer, liveGrunt, Vec3.normSq, Vec3.sub, Vec3.zero]
  have hA0 : alertOne (fun v => v) (offsZ 0 0) ⟨5, 0, 0⟩ srcSeer.id srcSeer.position
      srcSeer = srcSeer :=
    alertOne_skip _ _ _ _ _ _ (Or.inl rfl)
  have hA1 : alertOne (fun v => v) (offsZ 0 1) ⟨5, 0, 0⟩ srcSeer.id srcSeer.position
      combatMate
      = setAlertTarget (transitionTo (fun v => v) combatMate .ALERT) ⟨5, 0, 0⟩ := by
    simp only [alertOne]
    rw [if_neg (by decide), if_pos hnear, if_neg (by decide)]
  have hpass : alertNearbyEnemies (fun v => v) (offsZ 0) ⟨5, 0, 0⟩ srcSeer.id
      srcSeer.position [srcSeer, combatMate]
      = [srcSeer, setAlertTarget (transitionTo (fun v => v) combatMate .ALERT) ⟨5, 0, 0⟩] := by
    simp only [alertNearbyEnemies]
    rw [show List.enum [srcSeer, combatMate] = [(0, srcSeer), (1, combatMate)] from rfl]
    simp only [List.map]
    rw [hA0, hA1]
  have h0 : groupStep (fun v => v) offsZ ⟨5, 0, 0⟩ [srcSeer, combatMate] 0
      = [srcSeer, setAlertTarget (transitionTo (fun v => v) combatMate .ALERT) ⟨5, 0, 0⟩] := by
    simp only [groupStep,
      show ([srcSeer, combatMate] : List Agent)[0]? = some srcSeer from rfl]
    rw [if_pos (by decide)]
    exact hpass
  have h1 : groupStep (fun v => v) offsZ ⟨5, 0, 0⟩
      [srcSeer, setAlertTarget (transitionTo (fun v => v) combatMate .ALERT) ⟨5, 0, 0⟩] 1
      = [srcSeer, setAlertTarget (transitionTo (fun v => v) combatMate .ALERT) ⟨5, 0, 0⟩] := by
    simp only [groupStep,
      show ([srcSeer, setAlertTarget (transitionTo (fun v => v) combatMate .ALERT)
          ⟨5, 0, 0⟩] : List Agent)[1]?
        = some (setAlertTarget (transitionTo (fun v => v) combatMate .ALERT) ⟨5, 0, 0⟩)
        from rfl]
    rw [if_neg (by decide)]
  have hrun : updateGroupAI (fun v => v) offsZ ⟨5, 0, 0⟩ [srcSeer, combatMate]
      = [srcSeer, setAlertTarget (transitionTo (fun v => v) combatMate .ALERT) ⟨5, 0, 0⟩] := by
    simp only [updateGroupAI]
    rw [show List.range ([srcSeer, combatMate] : List Agent).length = [0, 1] from rfl]
    simp only [List.foldl]
    rw [h0, h1]
  rw [hrun]
  refine ⟨by decide, by decide, by decide, ?_⟩
  rw [show ([srcSeer, setAlertTarget (transitionTo (fun v => v) combatMate .ALERT)
      ⟨5, 0, 0⟩] : List Agent)[1]?
    = some (setAlertTarget (transitionTo (fun v => v) combatMate .ALERT) ⟨5, 0, 0⟩)
    from rfl]
  simp [setAlertTarget]

end CSRPG
